import Mathlib

/-!
Shallow embedding of the things-cloud-api synchronization core
(`src/things_cloud/models/todo.py`, `src/things_cloud/api/client.py`,
`src/things_cloud/models/tag.py`), together with theorems settling the
specification claims about it.

Modelling conventions:
* `datetime` / `time` values are modelled as `Nat` timestamps; `Util.now()`
  and `Util.today()` are passed explicitly as `now` / `today` parameters.
* Python `Any`-typed fields (`repeater`, `repeater_migration_date`,
  `recurrence_rule`) are modelled as `Option String` (an opaque value or
  `None`); `list[Any]` fields (`tags`, `delegate`) as `List String`.
* A raised Python exception is modelled as `Except.error (e : PyError)`.
* pydantic's `model_dump` key set of `TodoItem` (regular fields followed by
  the computed fields `type`, `status`, `destination`) is the list
  `dumpKeys`; the field order of `TodoDeltaApiObject` is `deltaKeys`.
* The private attributes `_uuid`, `_status`, `_destination`, `_projects`,
  `_areas`, `_evening`, `_type`, `_synced_state` are structure fields
  `uuid`, `status`, ... , `synced_state`; they are not part of `dumpKeys`,
  mirroring their exclusion from `model_dump`.
-/

namespace ThingsCloud

/-- Status IntEnum: TODO = 0, CANCELLED = 2, COMPLETE = 3. -/
inductive Status where
  | todo
  | cancelled
  | complete
deriving DecidableEq, Repr

/-- Destination IntEnum: INBOX = 0, ANYTIME = 1, SOMEDAY = 2. -/
inductive Destination where
  | inbox
  | anytime
  | someday
deriving DecidableEq, Repr

/-- Type IntEnum of a todo: TASK = 0, PROJECT = 1, HEADING = 2. -/
inductive TType where
  | task
  | project
  | heading
deriving DecidableEq, Repr

/-- Note payload sub-object. -/
structure Note where
  t_ : String := "tx"
  ch : Int := 0
  value : String := ""
  t : Int := 1
deriving DecidableEq, Repr

/-- XX payload sub-object (opaque `sn` dict modelled as a list). -/
structure XX where
  sn : List String := []
  t_ : String := "oo"
deriving DecidableEq, Repr

/-- Python exceptions raised by the modelled code. -/
inductive PyError where
  | valueError (msg : String)
  | runtimeError (msg : String)
  | attributeError
  | cloudError
deriving DecidableEq, Repr

/-- Field names of the todo schema: the union of the pydantic fields of
`TodoItem` / `TodoApiObject` / `TodoDeltaApiObject`. -/
inductive FieldKey where
  | index
  | title
  | status
  | destination
  | creation_date
  | modification_date
  | scheduled_date
  | today_index_reference_date
  | completion_date
  | due_date
  | trashed
  | instance_creation_paused
  | projects
  | areas
  | evening
  | tags
  | type
  | due_date_suppression_date
  | repeating_template
  | repeater_migration_date
  | delegate
  | due_date_offset
  | last_alarm_interaction_date
  | action_group
  | leaves_tombstone
  | instance_creation_count
  | today_index
  | reminder
  | instance_creation_start_date
  | repeater
  | after_completion_reference_date
  | recurrence_rule
  | note
  | xx
deriving DecidableEq, Repr

/-- Runtime value of a field, as compared by Python `==` in the diff and
apply code paths. `method` stands for a bound-method object returned by
`getattr` for a name that is a method rather than a field. -/
inductive FieldValue where
  | int (i : Int)
  | str (s : String)
  | status (s : Status)
  | dest (d : Destination)
  | ty (t : TType)
  | optNat (n : Option Nat)
  | bool (b : Bool)
  | strList (l : List String)
  | optStr (s : Option String)
  | note (n : Note)
  | xx (x : XX)
  | method
deriving DecidableEq, Repr

/-- TodoApiObject: the full wire payload of a todo (all fields present);
also the type of `_synced_state`. -/
structure TodoApiObject where
  index : Int
  title : String
  status : Status
  destination : Destination
  creation_date : Option Nat
  modification_date : Option Nat
  scheduled_date : Option Nat
  today_index_reference_date : Option Nat
  completion_date : Option Nat
  due_date : Option Nat
  trashed : Bool
  instance_creation_paused : Bool
  projects : List String
  areas : List String
  evening : Bool
  tags : List String
  type : TType
  due_date_suppression_date : Option Nat
  repeating_template : List String
  repeater_migration_date : Option String
  delegate : List String
  due_date_offset : Int
  last_alarm_interaction_date : Option Nat
  action_group : List String
  leaves_tombstone : Bool
  instance_creation_count : Int
  today_index : Int
  reminder : Option Nat
  instance_creation_start_date : Option Nat
  repeater : Option String
  after_completion_reference_date : Option Nat
  recurrence_rule : Option String
  note : Note
  xx : XX
deriving DecidableEq, Repr

/-- TodoItem: the working state of a todo. Fields `uuid`, `status`,
`destination`, `projects`, `areas`, `evening`, `type`, `synced_state`
model the private attributes `_uuid`, `_status`, `_destination`,
`_projects`, `_areas`, `_evening`, `_type`, `_synced_state`. -/
structure TodoItem where
  uuid : String
  index : Int := 0
  title : String
  status : Status := .todo
  destination : Destination := .inbox
  creation_date : Nat
  modification_date : Nat
  scheduled_date : Option Nat := none
  today_index_reference_date : Option Nat := none
  completion_date : Option Nat := none
  due_date : Option Nat := none
  trashed : Bool := false
  instance_creation_paused : Bool := false
  projects : List String := []
  areas : List String := []
  evening : Bool := false
  tags : List String := []
  type : TType := .task
  due_date_suppression_date : Option Nat := none
  repeating_template : List String := []
  repeater_migration_date : Option String := none
  delegate : List String := []
  due_date_offset : Int := 0
  last_alarm_interaction_date : Option Nat := none
  action_group : List String := []
  leaves_tombstone : Bool := false
  instance_creation_count : Int := 0
  today_index : Int := 0
  reminder : Option Nat := none
  instance_creation_start_date : Option Nat := none
  repeater : Option String := none
  after_completion_reference_date : Option Nat := none
  recurrence_rule : Option String := none
  note : Note := {}
  xx : XX := {}
  synced_state : Option TodoApiObject := none
deriving DecidableEq, Repr

/-- TodoDeltaApiObject: an edit payload; every field optional, `none`
meaning absent (pydantic `exclude_none` drops it from the dump). The
`default_factory=Util.now` on `modification_date` is applied at the
construction sites (`TodoItem.editsDelta`), since it runs at validation
time. -/
structure TodoDeltaApiObject where
  index : Option Int := none
  title : Option String := none
  status : Option Status := none
  destination : Option Destination := none
  creation_date : Option Nat := none
  modification_date : Option Nat := none
  scheduled_date : Option Nat := none
  today_index_reference_date : Option Nat := none
  completion_date : Option Nat := none
  due_date : Option Nat := none
  trashed : Option Bool := none
  instance_creation_paused : Option Bool := none
  projects : Option (List String) := none
  areas : Option (List String) := none
  evening : Option Bool := none
  tags : Option (List String) := none
  type : Option TType := none
  due_date_suppression_date : Option Nat := none
  repeating_template : Option (List String) := none
  repeater_migration_date : Option String := none
  delegate : Option (List String) := none
  due_date_offset : Option Int := none
  last_alarm_interaction_date : Option Nat := none
  action_group : Option (List String) := none
  leaves_tombstone : Option Bool := none
  instance_creation_count : Option Int := none
  today_index : Option Int := none
  reminder : Option Nat := none
  instance_creation_start_date : Option Nat := none
  repeater : Option String := none
  after_completion_reference_date : Option Nat := none
  recurrence_rule : Option String := none
  note : Option Note := none
  xx : Option XX := none
deriving DecidableEq, Repr

/-- Keys of `TodoItem.model_dump()`: the 28 regular pydantic fields in
definition order followed by the computed fields `type`, `status`,
`destination`. The private attributes (`projects`, `areas`, `evening`,
`uuid`, `synced_state`) are not dumped. -/
def dumpKeys : List FieldKey :=
  [.index, .title, .creation_date, .modification_date, .scheduled_date,
   .today_index_reference_date, .completion_date, .due_date, .trashed,
   .instance_creation_paused, .tags, .due_date_suppression_date,
   .repeating_template, .repeater_migration_date, .delegate,
   .due_date_offset, .last_alarm_interaction_date, .action_group,
   .leaves_tombstone, .instance_creation_count, .today_index, .reminder,
   .instance_creation_start_date, .repeater,
   .after_completion_reference_date, .recurrence_rule, .note, .xx,
   .type, .status, .destination]

/-- Field definition order of `TodoDeltaApiObject` (the iteration order of
its `model_dump`). -/
def deltaKeys : List FieldKey :=
  [.index, .title, .status, .destination, .creation_date,
   .modification_date, .scheduled_date, .today_index_reference_date,
   .completion_date, .due_date, .trashed, .instance_creation_paused,
   .projects, .areas, .evening, .tags, .type, .due_date_suppression_date,
   .repeating_template, .repeater_migration_date, .delegate,
   .due_date_offset, .last_alarm_interaction_date, .action_group,
   .leaves_tombstone, .instance_creation_count, .today_index, .reminder,
   .instance_creation_start_date, .repeater,
   .after_completion_reference_date, .recurrence_rule, .note, .xx]

/-- Python `getattr` on a `TodoApiObject` (every key is a plain field). -/
def TodoApiObject.get (a : TodoApiObject) : FieldKey → FieldValue
  | .index => .int a.index
  | .title => .str a.title
  | .status => .status a.status
  | .destination => .dest a.destination
  | .creation_date => .optNat a.creation_date
  | .modification_date => .optNat a.modification_date
  | .scheduled_date => .optNat a.scheduled_date
  | .today_index_reference_date => .optNat a.today_index_reference_date
  | .completion_date => .optNat a.completion_date
  | .due_date => .optNat a.due_date
  | .trashed => .bool a.trashed
  | .instance_creation_paused => .bool a.instance_creation_paused
  | .projects => .strList a.projects
  | .areas => .strList a.areas
  | .evening => .bool a.evening
  | .tags => .strList a.tags
  | .type => .ty a.type
  | .due_date_suppression_date => .optNat a.due_date_suppression_date
  | .repeating_template => .strList a.repeating_template
  | .repeater_migration_date => .optStr a.repeater_migration_date
  | .delegate => .strList a.delegate
  | .due_date_offset => .int a.due_date_offset
  | .last_alarm_interaction_date => .optNat a.last_alarm_interaction_date
  | .action_group => .strList a.action_group
  | .leaves_tombstone => .bool a.leaves_tombstone
  | .instance_creation_count => .int a.instance_creation_count
  | .today_index => .int a.today_index
  | .reminder => .optNat a.reminder
  | .instance_creation_start_date => .optNat a.instance_creation_start_date
  | .repeater => .optStr a.repeater
  | .after_completion_reference_date => .optNat a.after_completion_reference_date
  | .recurrence_rule => .optStr a.recurrence_rule
  | .note => .note a.note
  | .xx => .xx a.xx

/-- Python `getattr` on a `TodoItem`. `projects` and `areas` are not
attributes of the class (only the singular `project` / `area` properties
and the private `_projects` / `_areas` exist), so `getattr` raises
`AttributeError`, modelled as `none`; `evening` is a method, so `getattr`
returns a bound method object. The working `creation_date` /
`modification_date` are plain datetimes, compared against possibly-`None`
synced values, hence wrapped as `optNat (some _)`. -/
def TodoItem.getattr (t : TodoItem) : FieldKey → Option FieldValue
  | .index => some (.int t.index)
  | .title => some (.str t.title)
  | .status => some (.status t.status)
  | .destination => some (.dest t.destination)
  | .creation_date => some (.optNat (some t.creation_date))
  | .modification_date => some (.optNat (some t.modification_date))
  | .scheduled_date => some (.optNat t.scheduled_date)
  | .today_index_reference_date => some (.optNat t.today_index_reference_date)
  | .completion_date => some (.optNat t.completion_date)
  | .due_date => some (.optNat t.due_date)
  | .trashed => some (.bool t.trashed)
  | .instance_creation_paused => some (.bool t.instance_creation_paused)
  | .projects => none
  | .areas => none
  | .evening => some .method
  | .tags => some (.strList t.tags)
  | .type => some (.ty t.type)
  | .due_date_suppression_date => some (.optNat t.due_date_suppression_date)
  | .repeating_template => some (.strList t.repeating_template)
  | .repeater_migration_date => some (.optStr t.repeater_migration_date)
  | .delegate => some (.strList t.delegate)
  | .due_date_offset => some (.int t.due_date_offset)
  | .last_alarm_interaction_date => some (.optNat t.last_alarm_interaction_date)
  | .action_group => some (.strList t.action_group)
  | .leaves_tombstone => some (.bool t.leaves_tombstone)
  | .instance_creation_count => some (.int t.instance_creation_count)
  | .today_index => some (.int t.today_index)
  | .reminder => some (.optNat t.reminder)
  | .instance_creation_start_date => some (.optNat t.instance_creation_start_date)
  | .repeater => some (.optStr t.repeater)
  | .after_completion_reference_date => some (.optNat t.after_completion_reference_date)
  | .recurrence_rule => some (.optStr t.recurrence_rule)
  | .note => some (.note t.note)
  | .xx => some (.xx t.xx)

/-- Value of a dumped field of a `TodoItem` (total helper; on `dumpKeys`
`getattr` never fails, so the default is never reached there). -/
def TodoItem.dumpGet (t : TodoItem) (k : FieldKey) : FieldValue :=
  (t.getattr k).getD .method

/-- Python `getattr` on a `TodoDeltaApiObject`, restricted to present
(non-`None`) fields: `none` means the field is absent from the
`exclude_none` dump. -/
def TodoDeltaApiObject.get? (d : TodoDeltaApiObject) : FieldKey → Option FieldValue
  | .index => d.index.map .int
  | .title => d.title.map .str
  | .status => d.status.map .status
  | .destination => d.destination.map .dest
  | .creation_date => d.creation_date.map (fun n => .optNat (some n))
  | .modification_date => d.modification_date.map (fun n => .optNat (some n))
  | .scheduled_date => d.scheduled_date.map (fun n => .optNat (some n))
  | .today_index_reference_date => d.today_index_reference_date.map (fun n => .optNat (some n))
  | .completion_date => d.completion_date.map (fun n => .optNat (some n))
  | .due_date => d.due_date.map (fun n => .optNat (some n))
  | .trashed => d.trashed.map .bool
  | .instance_creation_paused => d.instance_creation_paused.map .bool
  | .projects => d.projects.map .strList
  | .areas => d.areas.map .strList
  | .evening => d.evening.map .bool
  | .tags => d.tags.map .strList
  | .type => d.type.map .ty
  | .due_date_suppression_date => d.due_date_suppression_date.map (fun n => .optNat (some n))
  | .repeating_template => d.repeating_template.map .strList
  | .repeater_migration_date => d.repeater_migration_date.map (fun s => .optStr (some s))
  | .delegate => d.delegate.map .strList
  | .due_date_offset => d.due_date_offset.map .int
  | .last_alarm_interaction_date => d.last_alarm_interaction_date.map (fun n => .optNat (some n))
  | .action_group => d.action_group.map .strList
  | .leaves_tombstone => d.leaves_tombstone.map .bool
  | .instance_creation_count => d.instance_creation_count.map .int
  | .today_index => d.today_index.map .int
  | .reminder => d.reminder.map (fun n => .optNat (some n))
  | .instance_creation_start_date => d.instance_creation_start_date.map (fun n => .optNat (some n))
  | .repeater => d.repeater.map (fun s => .optStr (some s))
  | .after_completion_reference_date => d.after_completion_reference_date.map (fun n => .optNat (some n))
  | .recurrence_rule => d.recurrence_rule.map (fun s => .optStr (some s))
  | .note => d.note.map .note
  | .xx => d.xx.map .xx

/-- Lower-cased name of a status, as interpolated into the duplicate-status
error message. -/
def statusName : Status → String
  | .todo => "todo"
  | .cancelled => "cancelled"
  | .complete => "complete"

/-- Property `is_today`: destination is ANYTIME and the scheduled date is
today. -/
def TodoItem.is_today (t : TodoItem) (today : Nat) : Bool :=
  decide (t.destination = Destination.anytime ∧ t.scheduled_date = some today)

/-- Property `is_evening`: today and the evening bit is set. -/
def TodoItem.is_evening (t : TodoItem) (today : Nat) : Bool :=
  t.is_today today && t.evening

/-- Status property setter: rejects setting the current status, then sets
it and deterministically clears (`TODO`) or stamps (`COMPLETE` /
`CANCELLED`) the completion date. The raise happens before any mutation. -/
def TodoItem.setStatus (t : TodoItem) (status : Status) (now : Nat) :
    Except PyError TodoItem :=
  if t.status = status then
    .error (.valueError ("item already has " ++ statusName status ++ " status"))
  else
    let t := { t with status := status }
    match status with
    | .todo => .ok { t with completion_date := none }
    | .complete => .ok { t with completion_date := some now }
    | .cancelled => .ok { t with completion_date := some now }

/-- Destination property setter: only a `TASK` proper may change
destination. -/
def TodoItem.setDestination (t : TodoItem) (destination : Destination) :
    Except PyError TodoItem :=
  if t.type ≠ TType.task then
    .error (.valueError "destination can only be changed for a task")
  else
    .ok { t with destination := destination }

/-- Python truthiness of an optional string (`None` and `""` are falsy). -/
def strTruthy : Option String → Bool
  | none => false
  | some s => decide (s ≠ "")

/-- Property `project`: head of `_projects` or `None`. -/
def TodoItem.project (t : TodoItem) : Option String :=
  t.projects.head?

/-- Property `area`: head of `_areas` or `None`. -/
def TodoItem.area (t : TodoItem) : Option String :=
  t.areas.head?

/-- Project property setter (string-or-`None` argument). A truthy id equal
to the item's own uuid is rejected; a falsy argument clears `_projects`
and returns; otherwise `_projects` is replaced, a truthy `area` is
cleared (the area setter's `None` branch, inlined), and an Inbox item is
moved to Anytime through the destination setter. -/
def TodoItem.setProject (t : TodoItem) (project : Option String) :
    Except PyError TodoItem := do
  let t ←
    if strTruthy project then
      if some t.uuid = project then
        .error (.valueError "cannot assign self as project")
      else
        .ok { t with projects := project.toList }
    else
      .ok t
  if ¬ strTruthy project then
    .ok { t with projects := [] }
  else do
    let t ←
      if strTruthy t.area then
        .ok { t with areas := [] }
      else
        .ok t
    if t.destination = Destination.inbox then
      t.setDestination Destination.anytime
    else
      .ok t

/-- Area property setter: a falsy argument clears `_areas` and returns;
otherwise `_areas` is replaced, a truthy `project` is cleared (the
project setter's `None` branch, inlined), and an Inbox item is moved to
Anytime through the destination setter. -/
def TodoItem.setArea (t : TodoItem) (area : Option String) :
    Except PyError TodoItem := do
  if ¬ strTruthy area then
    .ok { t with areas := [] }
  else
    let t := { t with areas := area.toList }
    let t ←
      if strTruthy t.project then
        .ok { t with projects := [] }
      else
        .ok t
    if t.destination = Destination.inbox then
      t.setDestination Destination.anytime
    else
      .ok t

/-- Python `setattr(todo, key, value)` as performed by `apply_edits`.
Plain pydantic fields are assigned directly; `status` and `destination`
dispatch through their property setters; `type` is a computed field
without a setter and `projects` / `areas` / `evening` are not fields of
`TodoItem`, so assignment raises. A value of the wrong shape for the
field cannot arise from a delta payload and is mapped to a validation
error. -/
def TodoItem.setattr (t : TodoItem) (k : FieldKey) (v : FieldValue) (now : Nat) :
    Except PyError TodoItem :=
  match k, v with
  | .index, .int i => .ok { t with index := i }
  | .title, .str s => .ok { t with title := s }
  | .status, .status s => t.setStatus s now
  | .destination, .dest d => t.setDestination d
  | .creation_date, .optNat (some n) => .ok { t with creation_date := n }
  | .modification_date, .optNat (some n) => .ok { t with modification_date := n }
  | .scheduled_date, .optNat n => .ok { t with scheduled_date := n }
  | .today_index_reference_date, .optNat n => .ok { t with today_index_reference_date := n }
  | .completion_date, .optNat n => .ok { t with completion_date := n }
  | .due_date, .optNat n => .ok { t with due_date := n }
  | .trashed, .bool b => .ok { t with trashed := b }
  | .instance_creation_paused, .bool b => .ok { t with instance_creation_paused := b }
  | .projects, _ => .error .attributeError
  | .areas, _ => .error .attributeError
  | .evening, _ => .error .attributeError
  | .tags, .strList l => .ok { t with tags := l }
  | .type, _ => .error .attributeError
  | .due_date_suppression_date, .optNat n => .ok { t with due_date_suppression_date := n }
  | .repeating_template, .strList l => .ok { t with repeating_template := l }
  | .repeater_migration_date, .optStr s => .ok { t with repeater_migration_date := s }
  | .delegate, .strList l => .ok { t with delegate := l }
  | .due_date_offset, .int i => .ok { t with due_date_offset := i }
  | .last_alarm_interaction_date, .optNat n => .ok { t with last_alarm_interaction_date := n }
  | .action_group, .strList l => .ok { t with action_group := l }
  | .leaves_tombstone, .bool b => .ok { t with leaves_tombstone := b }
  | .instance_creation_count, .int i => .ok { t with instance_creation_count := i }
  | .today_index, .int i => .ok { t with today_index := i }
  | .reminder, .optNat n => .ok { t with reminder := n }
  | .instance_creation_start_date, .optNat n => .ok { t with instance_creation_start_date := n }
  | .repeater, .optStr s => .ok { t with repeater := s }
  | .after_completion_reference_date, .optNat n => .ok { t with after_completion_reference_date := n }
  | .recurrence_rule, .optStr s => .ok { t with recurrence_rule := s }
  | .note, .note n => .ok { t with note := n }
  | .xx, .xx x => .ok { t with xx := x }
  | _, _ => .error (.valueError "validation error")

/-- Keys present in the `exclude_none` dump of a delta, in field order. -/
def TodoDeltaApiObject.presentKeys (d : TodoDeltaApiObject) : List FieldKey :=
  deltaKeys.filter (fun k => (d.get? k).isSome)

/-- One iteration of the `apply_edits` loop: read the old value with
`getattr`, reject an identical value, otherwise assign it. -/
def applyStep (d : TodoDeltaApiObject) (now : Nat) (todo : TodoItem)
    (k : FieldKey) : Except PyError TodoItem :=
  match d.get? k with
  | none => .ok todo
  | some v =>
    match todo.getattr k with
    | none => .error .attributeError
    | some old =>
      if old = v then
        .error (.valueError ("old and new value are identical"))
      else
        todo.setattr k v now

/-- `TodoDeltaApiObject.apply_edits`: iterate over the keys present in the
payload; an empty payload is a `RuntimeError`; an identical old value is
a `ValueError`; otherwise each present field is assigned onto the working
state. -/
def TodoDeltaApiObject.apply_edits (d : TodoDeltaApiObject) (todo : TodoItem)
    (now : Nat) : Except PyError TodoItem :=
  if d.presentKeys.isEmpty then
    .error (.runtimeError "there are no edits to apply")
  else
    d.presentKeys.foldlM (applyStep d now) todo

/-- Whether a dumped field of the working state differs from the synced
state (`getattr(self._synced_state, key) != getattr(self, key)` in
`_to_edit`). -/
def fieldDiff (t : TodoItem) (synced : TodoApiObject) (k : FieldKey) : Bool :=
  decide (t.dumpGet k ≠ synced.get k)

/-- Carry a non-nullable working value into a delta field when it changed
(`edits[key] = new_value`). -/
def carryVal {α : Type} (changed : Bool) (v : α) : Option α :=
  if changed then some v else none

/-- Carry a nullable working value into a delta field when it changed: a
field changed to `None` lands in the `edits` dict as `None`, which the
delta stores as `None` again (so `exclude_none` drops it). -/
def carryOpt {α : Type} (changed : Bool) (v : Option α) : Option α :=
  if changed then v else none

/-- Delta built by `_to_edit` from the changed dumped fields of a todo
whose synced state is `synced`. `projects`, `areas` and `evening` are
never dumped and never carried; `modification_date` falls back to its
`Util.now` default factory when it is not among the edits. -/
def TodoItem.editsDelta (t : TodoItem) (synced : TodoApiObject) (now : Nat) :
    TodoDeltaApiObject where
  index := carryVal (fieldDiff t synced .index) t.index
  title := carryVal (fieldDiff t synced .title) t.title
  status := carryVal (fieldDiff t synced .status) t.status
  destination := carryVal (fieldDiff t synced .destination) t.destination
  creation_date := carryVal (fieldDiff t synced .creation_date) t.creation_date
  modification_date :=
    some ((carryVal (fieldDiff t synced .modification_date) t.modification_date).getD now)
  scheduled_date := carryOpt (fieldDiff t synced .scheduled_date) t.scheduled_date
  today_index_reference_date :=
    carryOpt (fieldDiff t synced .today_index_reference_date) t.today_index_reference_date
  completion_date := carryOpt (fieldDiff t synced .completion_date) t.completion_date
  due_date := carryOpt (fieldDiff t synced .due_date) t.due_date
  trashed := carryVal (fieldDiff t synced .trashed) t.trashed
  instance_creation_paused :=
    carryVal (fieldDiff t synced .instance_creation_paused) t.instance_creation_paused
  projects := none
  areas := none
  evening := none
  tags := carryVal (fieldDiff t synced .tags) t.tags
  type := carryVal (fieldDiff t synced .type) t.type
  due_date_suppression_date :=
    carryOpt (fieldDiff t synced .due_date_suppression_date) t.due_date_suppression_date
  repeating_template := carryVal (fieldDiff t synced .repeating_template) t.repeating_template
  repeater_migration_date :=
    carryOpt (fieldDiff t synced .repeater_migration_date) t.repeater_migration_date
  delegate := carryVal (fieldDiff t synced .delegate) t.delegate
  due_date_offset := carryVal (fieldDiff t synced .due_date_offset) t.due_date_offset
  last_alarm_interaction_date :=
    carryOpt (fieldDiff t synced .last_alarm_interaction_date) t.last_alarm_interaction_date
  action_group := carryVal (fieldDiff t synced .action_group) t.action_group
  leaves_tombstone := carryVal (fieldDiff t synced .leaves_tombstone) t.leaves_tombstone
  instance_creation_count :=
    carryVal (fieldDiff t synced .instance_creation_count) t.instance_creation_count
  today_index := carryVal (fieldDiff t synced .today_index) t.today_index
  reminder := carryOpt (fieldDiff t synced .reminder) t.reminder
  instance_creation_start_date :=
    carryOpt (fieldDiff t synced .instance_creation_start_date) t.instance_creation_start_date
  repeater := carryOpt (fieldDiff t synced .repeater) t.repeater
  after_completion_reference_date :=
    carryOpt (fieldDiff t synced .after_completion_reference_date) t.after_completion_reference_date
  recurrence_rule := carryOpt (fieldDiff t synced .recurrence_rule) t.recurrence_rule
  note := carryVal (fieldDiff t synced .note) t.note
  xx := carryVal (fieldDiff t synced .xx) t.xx

/-- `TodoItem._to_edit`: fails without a synced state; diffs every dumped
field of the working state against the synced state; fails when no
dumped field changed; otherwise validates the changed fields into a
delta (whose `modification_date` defaults to `Util.now`). -/
def TodoItem.to_edit (t : TodoItem) (now : Nat) :
    Except PyError TodoDeltaApiObject :=
  match t.synced_state with
  | none => .error (.valueError "no current version exists for todo, use _to_new instead")
  | some synced =>
    let edits := dumpKeys.filter (fieldDiff t synced)
    if edits.isEmpty then
      .error (.valueError "no changes found")
    else
      .ok (t.editsDelta synced now)

/-- Full create payload serialized by `_to_new` (after the
`modification_date` stamp). -/
def TodoItem.toNewPayload (t : TodoItem) (today : Nat) : TodoApiObject :=
  { index := t.index
    title := t.title
    status := t.status
    destination := t.destination
    creation_date := some t.creation_date
    modification_date := some t.modification_date
    scheduled_date := t.scheduled_date
    today_index_reference_date := t.today_index_reference_date
    completion_date := t.completion_date
    due_date := t.due_date
    trashed := t.trashed
    instance_creation_paused := t.instance_creation_paused
    projects := t.projects
    areas := t.areas
    evening := t.is_evening today
    tags := t.tags
    type := t.type
    due_date_suppression_date := t.due_date_suppression_date
    repeating_template := t.repeating_template
    repeater_migration_date := t.repeater_migration_date
    delegate := t.delegate
    due_date_offset := t.due_date_offset
    last_alarm_interaction_date := t.last_alarm_interaction_date
    action_group := t.action_group
    leaves_tombstone := t.leaves_tombstone
    instance_creation_count := t.instance_creation_count
    today_index := t.today_index
    reminder := t.reminder
    instance_creation_start_date := t.instance_creation_start_date
    repeater := t.repeater
    after_completion_reference_date := t.after_completion_reference_date
    recurrence_rule := t.recurrence_rule
    note := t.note
    xx := t.xx }

/-- `TodoItem._to_new`: fails when a synced state exists; otherwise stamps
`modification_date := Util.now()` on the item (an in-place mutation that
happens before any network traffic) and serializes the full payload.
Returns the mutated item together with the payload. -/
def TodoItem.to_new (t : TodoItem) (now today : Nat) :
    Except PyError (TodoItem × TodoApiObject) :=
  match t.synced_state with
  | some _ => .error (.valueError "current version exists for todo, use _to_edit instead")
  | none =>
    let t := { t with modification_date := now }
    .ok (t, t.toNewPayload today)

/-- TagApiObject `parent` field: `list[str] | str | None` on the wire. -/
inductive TagParent where
  | null
  | strv (s : String)
  | listv (l : List String)
deriving DecidableEq, Repr

/-- TagApiObject (entity type Tag3). -/
structure TagApiObject where
  title : String
  parent : TagParent := .null
  short_name : String := ""
  index : Int := 0
deriving DecidableEq, Repr

/-- TagItem working state (`_uuid` modelled as `uuid`). -/
structure TagItem where
  uuid : String
  title : String
  parent : Option String := none
  short_name : String := ""
deriving DecidableEq, Repr

/-- `TagItem.from_api`: a list-valued `parent` collapses to its head. -/
def TagItem.from_api (uuid : String) (api_obj : TagApiObject) : TagItem :=
  let parent : Option String :=
    match api_obj.parent with
    | .null => none
    | .strv s => some s
    | .listv l => l.head?
  { uuid := uuid, title := api_obj.title, parent := parent
    short_name := api_obj.short_name }

/-- Wire body of one history operation, after pydantic parsing. `NewBody`
routes a Task6 payload to `TodoApiObject` and leaves other entity types
as raw dicts (`newTag` is the Tag3 case re-validated by the client;
`newOther` keeps only the entity tag of a remaining raw-dict payload);
`EditBody` parses a Task6 payload as `TodoDeltaApiObject`; `DeleteBody`
carries an empty payload. -/
inductive Body where
  | newTask (payload : TodoApiObject)
  | newTag (payload : TagApiObject)
  | newOther (entity : String)
  | edit (payload : TodoDeltaApiObject)
  | delete
deriving DecidableEq, Repr

/-- One keyed history operation (`Update`). -/
structure Update where
  id : String
  body : Body
deriving DecidableEq, Repr

/-- History fetch response; the content-size bookkeeping fields are opaque
pass-through values and are omitted. `items` is the flattened, ordered
`updates` sequence. -/
structure HistoryResponse where
  current_item_index : Nat
  items : List Update
deriving DecidableEq, Repr

/-- Python dict assignment `m[k] = v`: replace in place, else append. -/
def dictSet {β : Type} (m : List (String × β)) (k : String) (v : β) :
    List (String × β) :=
  if m.any (fun p => p.1 == k) then
    m.map (fun p => if p.1 == k then (k, v) else p)
  else
    m ++ [(k, v)]

/-- Python `m.get(k)` / `m[k]` lookup. -/
def dictGet? {β : Type} (m : List (String × β)) (k : String) : Option β :=
  (m.find? (fun p => p.1 == k)).map Prod.snd

/-- `TodoApiObject.to_todo`: build a working item from a full payload,
falling back to `Util.now()` for a missing creation or modification
date, and mark it freshly synced (`_synced_state` = the payload itself).
The item is constructed with a fresh private uuid (`Util.uuid()`),
passed here as `freshUuid`; the history applier overwrites it with the
operation's entity id. The constructor call omits `xx`, so the working
`xx` is the default `XX()` — only the synced snapshot keeps the
payload's value. -/
def TodoApiObject.to_todo (a : TodoApiObject) (freshUuid : String) (now : Nat) :
    TodoItem where
  uuid := freshUuid
  index := a.index
  title := a.title
  status := a.status
  destination := a.destination
  creation_date := a.creation_date.getD now
  modification_date := a.modification_date.getD now
  scheduled_date := a.scheduled_date
  today_index_reference_date := a.today_index_reference_date
  completion_date := a.completion_date
  due_date := a.due_date
  trashed := a.trashed
  instance_creation_paused := a.instance_creation_paused
  projects := a.projects
  areas := a.areas
  evening := a.evening
  tags := a.tags
  type := a.type
  due_date_suppression_date := a.due_date_suppression_date
  repeating_template := a.repeating_template
  repeater_migration_date := a.repeater_migration_date
  delegate := a.delegate
  due_date_offset := a.due_date_offset
  last_alarm_interaction_date := a.last_alarm_interaction_date
  action_group := a.action_group
  leaves_tombstone := a.leaves_tombstone
  instance_creation_count := a.instance_creation_count
  today_index := a.today_index
  reminder := a.reminder
  instance_creation_start_date := a.instance_creation_start_date
  repeater := a.repeater
  after_completion_reference_date := a.after_completion_reference_date
  recurrence_rule := a.recurrence_rule
  note := a.note
  xx := {}
  synced_state := some a

/-- `TodoItem.to_update`: a never-synced item is encoded as a create
(mutating its `modification_date`), a synced one as an edit. Returns the
item as left by the call together with the wire update. -/
def TodoItem.to_update (t : TodoItem) (now today : Nat) :
    Except PyError (TodoItem × Update) :=
  match t.synced_state with
  | none =>
    (t.to_new now today).map fun p =>
      (p.1, { id := p.1.uuid, body := .newTask p.2 })
  | some _ =>
    (t.to_edit now).map fun delta =>
      (t, { id := t.uuid, body := .edit delta })

/-- Field-merge of an edit delta into the synced state: `_commit`'s loop
`setattr(self._synced_state, key, new_value)` over the present keys of
the delta. -/
def TodoApiObject.setFromDelta (a : TodoApiObject) (d : TodoDeltaApiObject) :
    TodoApiObject :=
  { a with
    index := d.index.getD a.index
    title := d.title.getD a.title
    status := d.status.getD a.status
    destination := d.destination.getD a.destination
    creation_date := (d.creation_date.map some).getD a.creation_date
    modification_date := (d.modification_date.map some).getD a.modification_date
    scheduled_date := (d.scheduled_date.map some).getD a.scheduled_date
    today_index_reference_date :=
      (d.today_index_reference_date.map some).getD a.today_index_reference_date
    completion_date := (d.completion_date.map some).getD a.completion_date
    due_date := (d.due_date.map some).getD a.due_date
    trashed := d.trashed.getD a.trashed
    instance_creation_paused := d.instance_creation_paused.getD a.instance_creation_paused
    projects := d.projects.getD a.projects
    areas := d.areas.getD a.areas
    evening := d.evening.getD a.evening
    tags := d.tags.getD a.tags
    type := d.type.getD a.type
    due_date_suppression_date :=
      (d.due_date_suppression_date.map some).getD a.due_date_suppression_date
    repeating_template := d.repeating_template.getD a.repeating_template
    repeater_migration_date :=
      (d.repeater_migration_date.map some).getD a.repeater_migration_date
    delegate := d.delegate.getD a.delegate
    due_date_offset := d.due_date_offset.getD a.due_date_offset
    last_alarm_interaction_date :=
      (d.last_alarm_interaction_date.map some).getD a.last_alarm_interaction_date
    action_group := d.action_group.getD a.action_group
    leaves_tombstone := d.leaves_tombstone.getD a.leaves_tombstone
    instance_creation_count := d.instance_creation_count.getD a.instance_creation_count
    today_index := d.today_index.getD a.today_index
    reminder := (d.reminder.map some).getD a.reminder
    instance_creation_start_date :=
      (d.instance_creation_start_date.map some).getD a.instance_creation_start_date
    repeater := (d.repeater.map some).getD a.repeater
    after_completion_reference_date :=
      (d.after_completion_reference_date.map some).getD a.after_completion_reference_date
    recurrence_rule := (d.recurrence_rule.map some).getD a.recurrence_rule
    note := d.note.getD a.note
    xx := d.xx.getD a.xx }

/-- `TodoItem._commit`: a full payload replaces the synced state; anything
else is treated as a delta and field-merged into the existing synced
state (`setattr` on a `None` synced state raises). -/
def TodoItem.commitBody (t : TodoItem) (b : Body) : Except PyError TodoItem :=
  match b with
  | .newTask complete => .ok { t with synced_state := some complete }
  | .edit delta =>
    match t.synced_state with
    | none => .error .attributeError
    | some synced => .ok { t with synced_state := some (synced.setFromDelta delta) }
  | _ => .error .attributeError

/-- Local mirror and cursor of a `ThingsClient` session (`_items`,
`_tags`, `_offset`). -/
structure ClientState where
  items : List (String × TodoItem) := []
  tags : List (String × TagItem) := []
  offset : Nat
deriving DecidableEq, Repr

/-- Outcome of one `__commit` transport round-trip: the server's new head
index, or a transport failure / rejection (`ThingsCloudException`). -/
inductive TransportResult where
  | ok (server_head_index : Nat)
  | err
deriving DecidableEq, Repr

/-- State left by `ThingsClient.commit`: the client state, the (possibly
mutated) item, and the exception that escaped, if any. -/
structure CommitOutcome where
  state : ClientState
  item : TodoItem
  error : Option PyError
deriving DecidableEq, Repr

namespace ThingsClient

/-- Dispatch of `_process_history` on a single update. A NEW Tag3 body is
stored in `_tags`; any other NEW body is treated as a Task6 payload
(`payload.to_todo()`, which on a raw dict raises `AttributeError`), its
uuid overwritten with the operation id, and stored in `_items` with no
duplicate check. An EDIT body requires the item to exist and applies the
delta in place. A DELETE body matches no case and is skipped. -/
def processUpdate (st : ClientState) (u : Update) (now : Nat) :
    Except PyError ClientState :=
  match u.body with
  | .newTag payload =>
    let tag := TagItem.from_api u.id payload
    .ok { st with tags := dictSet st.tags tag.uuid tag }
  | .newTask payload =>
    let item := { payload.to_todo u.id now with uuid := u.id }
    .ok { st with items := dictSet st.items item.uuid item }
  | .newOther _ => .error .attributeError
  | .edit payload =>
    match dictGet? st.items u.id with
    | none => .error (.valueError "todo not found")
    | some item =>
      (payload.apply_edits item now).map fun item2 =>
        { st with items := dictSet st.items u.id item2 }
  | .delete => .ok st

/-- `ThingsClient._process_history`: fold the ordered update stream into
the store; a raised exception aborts the run. -/
def process_history (st : ClientState) (updates : List Update) (now : Nat) :
    Except PyError ClientState :=
  updates.foldlM (fun s u => processUpdate s u now) st

/-- Offset used as `start-index` by the next `__fetch`. -/
def fetchIndex (st : ClientState) : Nat :=
  st.offset

/-- `ThingsClient.update`: fetch from the current offset (the response is
an input here), process the history, then advance the offset to the
response's `current-item-index`. -/
def update (st : ClientState) (data : HistoryResponse) (now : Nat) :
    Except PyError ClientState :=
  (process_history st data.items now).map fun st2 =>
    { st2 with offset := data.current_item_index }

/-- `ThingsClient.commit`: encode the item (`to_update`, which in the
create path stamps `modification_date` before any network traffic), send
it with the current offset as ancestor, and only on a successful
response merge the payload into the item's synced state and advance the
offset to the server's head index. A transport failure or rejection is
re-raised with the state untouched. -/
def commit (st : ClientState) (item : TodoItem) (now today : Nat)
    (transport : TransportResult) : CommitOutcome :=
  match item.to_update now today with
  | .error e => { state := st, item := item, error := some e }
  | .ok (item2, upd) =>
    match transport with
    | .err => { state := st, item := item2, error := some .cloudError }
    | .ok head =>
      match item2.commitBody upd.body with
      | .error e => { state := st, item := item2, error := some e }
      | .ok item3 =>
        { state := { st with offset := head }, item := item3, error := none }

/-- `ThingsClient.get`: point lookup, absence is a valid outcome. -/
def get (st : ClientState) (uuid : String) : Option TodoItem :=
  dictGet? st.items uuid

end ThingsClient

/-! Concrete inputs used by the counterexamples and witnesses. -/

/-- Empty client state with cursor 0. -/
def st0 : ClientState := { offset := 0 }

/-- Baseline full payload of a task titled "A", created and modified at
time 1. -/
def apiA : TodoApiObject where
  index := 0
  title := "A"
  status := .todo
  destination := .inbox
  creation_date := some 1
  modification_date := some 1
  scheduled_date := none
  today_index_reference_date := none
  completion_date := none
  due_date := none
  trashed := false
  instance_creation_paused := false
  projects := []
  areas := []
  evening := false
  tags := []
  type := .task
  due_date_suppression_date := none
  repeating_template := []
  repeater_migration_date := none
  delegate := []
  due_date_offset := 0
  last_alarm_interaction_date := none
  action_group := []
  leaves_tombstone := false
  instance_creation_count := 0
  today_index := 0
  reminder := none
  instance_creation_start_date := none
  repeater := none
  after_completion_reference_date := none
  recurrence_rule := none
  note := {}
  xx := {}

/-- History operation: Create entity "X" with payload `apiA`. -/
def uCreate : Update := { id := "X", body := .newTask apiA }

/-- History operation: Edit entity "X" setting `title := "B"` (the parsed
payload also carries a `modification_date`, as every wire edit does). -/
def uEdit : Update :=
  { id := "X", body := .edit { title := some "B", modification_date := some 2 } }

/-- History operation: Delete entity "X". -/
def uDelete : Update := { id := "X", body := .delete }

/-- Second full payload for entity "X", titled "A2". -/
def apiA2 : TodoApiObject := { apiA with title := "A2" }

/-- History operation: a second Create for the already-present id "X". -/
def uCreate2 : Update := { id := "X", body := .newTask apiA2 }

/-- Store state after `[Create(X), Edit(X, {title: "B"})]`. -/
def stC1 : Except PyError ClientState :=
  ThingsClient.process_history st0 [uCreate, uEdit] 5

/-- Store state after `[Create(X), Delete(X)]`. -/
def stC2 : Except PyError ClientState :=
  ThingsClient.process_history st0 [uCreate, uDelete] 5

/-- Store state after `[Create(X), Create(X)]`. -/
def stC3 : Except PyError ClientState :=
  ThingsClient.process_history st0 [uCreate, uCreate2] 5

/-- Never-synced item (uuid "N", modified at time 1). -/
def itemNew : TodoItem :=
  { uuid := "N", title := "T", creation_date := 1, modification_date := 1 }

/-- Synced item mirroring `apiA` exactly (every dumped field equals its
synced value). -/
def itemX : TodoItem := apiA.to_todo "X" 1

/-- Synced item whose title and (undumped) areas both changed. -/
def itemC5 : TodoItem := { itemX with title := "B", areas := ["ar1"] }

/-- Synced item where only the undumped `_areas` changed. -/
def itemC6 : TodoItem := { itemX with areas := ["ar1"] }

/-- Client state with cursor 5. -/
def stOff5 : ClientState := { offset := 5 }

/-- History fetch response reporting `current-item-index` 3 with no items. -/
def dataIdx3 : HistoryResponse := { current_item_index := 3, items := [] }

/-- Payload whose completion date is set, so that clearing it locally is a
change to `None`. -/
def apiComp : TodoApiObject := { apiA with completion_date := some 5 }

/-- Synced item mirroring `apiComp` whose only local change is clearing
`completion_date` to `None`. -/
def itemC10 : TodoItem :=
  { apiComp.to_todo "X" 1 with completion_date := none }

/-- Synced item whose only local change is a new title "B". -/
def itemB : TodoItem := { itemX with title := "B" }

/-- Task used by the status-transition witness. -/
def itemS : TodoItem :=
  { uuid := "S", title := "T", creation_date := 1, modification_date := 1 }

/-- Inbox task with an area and a project set, used by the parent-relation
witness. -/
def itemP : TodoItem :=
  { uuid := "U1", title := "T", creation_date := 1, modification_date := 1
    projects := ["p0"], areas := ["a0"] }

/-- Edit delta of `uEdit`, on its own. -/
def deltaB : TodoDeltaApiObject := { title := some "B", modification_date := some 2 }

/-- `itemX` after `deltaB` has been applied to it. -/
def itemXEdited : TodoItem := { itemX with title := "B", modification_date := 2 }

/-- Pre-existing store entry for "X" (payload `apiA` deserialized at
time 5). -/
def itemXOld : TodoItem := { apiA.to_todo "X" 5 with uuid := "X" }

/-- Store already holding "X". -/
def stWithX : ClientState := { st0 with items := dictSet st0.items "X" itemXOld }

/-- Edit delta encoded from `itemC10` at time 9: its only carried field is
the defaulted `modification_date`, since the one changed field
(`completion_date`) was cleared to `None` and `exclude_none` drops it. -/
def dC10 : TodoDeltaApiObject := TodoItem.editsDelta itemC10 apiComp 9

/-- `itemC10` after its edit-commit was acknowledged. -/
def itemC10Committed : TodoItem :=
  { itemC10 with synced_state := some (apiComp.setFromDelta dC10) }

/-- Edit delta encoded from `itemB` at time 9 (carries the title). -/
def dB : TodoDeltaApiObject := TodoItem.editsDelta itemB apiA 9

/-- `itemB` after its edit-commit was acknowledged. -/
def itemBCommitted : TodoItem :=
  { itemB with synced_state := some (apiA.setFromDelta dB) }

/-! Helper lemmas. -/

theorem find?_map_dictSet {β : Type} (k : String) (v : β) :
    ∀ m : List (String × β), m.any (fun p => p.1 == k) = true →
      (m.map (fun p => if p.1 == k then (k, v) else p)).find? (fun p => p.1 == k) =
        some (k, v) := by
  intro m
  induction m with
  | nil => simp
  | cons p m ih =>
    intro h
    by_cases hp : (p.1 == k) = true
    · rw [List.map_cons, if_pos hp, List.find?_cons]
      simp
    · rw [List.map_cons, if_neg hp, List.find?_cons]
      simp only [hp]
      simp only [List.any_cons, hp, Bool.false_or] at h
      exact ih h

theorem dictGet?_dictSet_self {β : Type} (m : List (String × β)) (k : String) (v : β) :
    dictGet? (dictSet m k v) k = some v := by
  unfold dictGet? dictSet
  by_cases h : m.any (fun p => p.1 == k) = true
  · rw [if_pos h, find?_map_dictSet k v m h]
    rfl
  · rw [if_neg h, List.find?_append]
    have hnone : m.find? (fun p => p.1 == k) = none := by
      rw [List.find?_eq_none]
      intro p hp hpk
      exact h (List.any_of_mem hp hpk)
    simp [hnone, List.find?]

theorem setStatus_preserves_synced (t : TodoItem) (s : Status) (now : Nat)
    (t2 : TodoItem) (h : t.setStatus s now = .ok t2) :
    t2.synced_state = t.synced_state := by
  unfold TodoItem.setStatus at h
  split at h
  · cases h
  · split at h <;> (injection h with h; subst h; rfl)

theorem setDestination_preserves_synced (t : TodoItem) (d : Destination)
    (t2 : TodoItem) (h : t.setDestination d = .ok t2) :
    t2.synced_state = t.synced_state := by
  unfold TodoItem.setDestination at h
  split at h
  · cases h
  · injection h with h; subst h; rfl

set_option maxHeartbeats 1600000 in
theorem setattr_preserves_synced (t : TodoItem) (k : FieldKey) (v : FieldValue)
    (now : Nat) (t2 : TodoItem) (h : t.setattr k v now = .ok t2) :
    t2.synced_state = t.synced_state := by
  unfold TodoItem.setattr at h
  split at h <;>
    first
      | (injection h with h; subst h; rfl)
      | cases h
      | exact setStatus_preserves_synced _ _ _ _ h
      | exact setDestination_preserves_synced _ _ _ h

theorem applyStep_preserves_synced (d : TodoDeltaApiObject) (now : Nat)
    (todo : TodoItem) (k : FieldKey) (t2 : TodoItem)
    (h : applyStep d now todo k = .ok t2) :
    t2.synced_state = todo.synced_state := by
  unfold applyStep at h
  split at h
  · injection h with h; subst h; rfl
  · split at h
    · cases h
    · split at h
      · cases h
      · exact setattr_preserves_synced _ _ _ _ _ h

theorem foldl_applyStep_preserves_synced (d : TodoDeltaApiObject) (now : Nat) :
    ∀ (L : List FieldKey) (todo t2 : TodoItem),
      L.foldlM (applyStep d now) todo = .ok t2 →
      t2.synced_state = todo.synced_state := by
  intro L
  induction L with
  | nil =>
    intro todo t2 h
    injection h with h
    subst h; rfl
  | cons k ks ih =>
    intro todo t2 h
    rw [List.foldlM_cons] at h
    cases hstep : applyStep d now todo k with
    | error e => rw [hstep] at h; cases h
    | ok mid =>
      rw [hstep] at h
      have h2 := ih mid t2 h
      rw [h2, applyStep_preserves_synced d now todo k mid hstep]

/-! Claim C1. -/

/-- Claim C1, counterexample: feeding `[Create(X, title "A"),
Edit(X, {title: "B"})]` to the history applier yields a store where
`get(X).title = "B"` but `get(X).syncedState.title` is still `"A"`, not
`"B"` as the claim requires — `apply_edits` writes only the working
value, never the synced snapshot. -/
theorem c1_counterexample :
    (stC1.map fun st => (ThingsClient.get st "X").map fun i =>
      (i.title, i.synced_state.map TodoApiObject.title)) =
    .ok (some ("B", some "A")) := by
  rfl

/-- Claim C1, amended: for every edit payload applied by the history
applier, a successful `apply_edits` overwrites only the entity's working
values; the synced-state snapshot is left completely unchanged. -/
theorem c1_amended (d : TodoDeltaApiObject) (t : TodoItem) (now : Nat)
    (t2 : TodoItem) (h : d.apply_edits t now = .ok t2) :
    t2.synced_state = t.synced_state := by
  unfold TodoDeltaApiObject.apply_edits at h
  split at h
  · cases h
  · exact foldl_applyStep_preserves_synced d now d.presentKeys t t2 h

/-- Witness for `c1_amended` at the concrete delta of `uEdit` applied to
the synced item `itemX`. -/
theorem c1_witness :
    deltaB.apply_edits itemX 5 = .ok itemXEdited ∧
    itemXEdited.synced_state = itemX.synced_state := by
  constructor
  · rfl
  · exact c1_amended deltaB itemX 5 itemXEdited (by rfl)

/-! Claim C2. -/

/-- Claim C2, counterexample: after `[Create(X), Delete(X)]` the entity
"X" is still in the store with `trashed = false` — the Delete operation
is not handled like a trashing Edit, it is skipped entirely. -/
theorem c2_counterexample :
    (stC2.map fun st => (ThingsClient.get st "X").map fun i => i.trashed) =
    .ok (some false) := by
  rfl

/-- Claim C2, amended: a Delete operation matches no case of the history
applier's dispatch and is silently ignored: the store is returned
unchanged (in particular the entity's `trashed` flag is not set). -/
theorem c2_amended (st : ClientState) (u : Update) (now : Nat)
    (h : u.body = .delete) :
    ThingsClient.processUpdate st u now = .ok st := by
  unfold ThingsClient.processUpdate
  rw [h]

/-- Witness for `c2_amended` at the concrete Delete operation `uDelete`. -/
theorem c2_witness :
    ThingsClient.processUpdate st0 uDelete 5 = .ok st0 :=
  c2_amended st0 uDelete 5 rfl

/-! Claim C3. -/

/-- Claim C3, counterexample: feeding two Creates for the same id "X"
succeeds (no error) and silently overwrites: the store ends with the
second payload's title "A2". The claim requires a duplicate-create
error. -/
theorem c3_counterexample :
    (stC3.map fun st => (ThingsClient.get st "X").map fun i => i.title) =
    .ok (some "A2") := by
  rfl

/-- Claim C3, amended: a Create whose entity id already exists in the
store is not rejected: it succeeds and replaces the existing entity with
the freshly deserialized payload. -/
theorem c3_amended (st : ClientState) (u : Update) (now : Nat)
    (payload : TodoApiObject) (old : TodoItem)
    (hb : u.body = .newTask payload)
    (_hex : ThingsClient.get st u.id = some old) :
    ThingsClient.processUpdate st u now =
      .ok { st with items := dictSet st.items u.id ({ payload.to_todo u.id now with uuid := u.id }) } ∧
    ThingsClient.get { st with items := dictSet st.items u.id ({ payload.to_todo u.id now with uuid := u.id }) } u.id =
      some { payload.to_todo u.id now with uuid := u.id } := by
  constructor
  · unfold ThingsClient.processUpdate
    rw [hb]
  · exact dictGet?_dictSet_self st.items u.id _

/-- Witness for `c3_amended` at the duplicate create `uCreate2` on a store
already holding "X". -/
theorem c3_witness :
    ThingsClient.processUpdate stWithX uCreate2 5 =
      .ok { stWithX with items := dictSet stWithX.items "X" ({ apiA2.to_todo "X" 5 with uuid := "X" }) } := by
  have h := c3_amended stWithX uCreate2 5 apiA2 itemXOld rfl (by decide)
  exact h.1

/-! Claim C4. -/

/-- Claim C4, counterexample: committing the never-synced item `itemNew`
(whose `modification_date` is 1) at time 2 over a failing transport
leaves `modification_date = 2`: the encode step mutated the entity
before the request was sent, so a failed commit does not leave the
entity completely unchanged. -/
theorem c4_counterexample :
    (ThingsClient.commit st0 itemNew 2 0 .err).error = some .cloudError ∧
    (ThingsClient.commit st0 itemNew 2 0 .err).item.modification_date = 2 ∧
    itemNew.modification_date = 1 := by
  exact ⟨rfl, rfl, rfl⟩

/-- Claim C4, amended: a failed commit leaves the session cursor and the
whole client state unchanged and never touches the entity's synced
state; the entity itself is fully unchanged in the edit path, but in the
create path its `modification_date` has already been stamped with the
commit-time instant before the transport failure. -/
theorem c4_amended (st : ClientState) (item : TodoItem) (now today : Nat) :
    (ThingsClient.commit st item now today .err).state = st ∧
    (ThingsClient.commit st item now today .err).error.isSome = true ∧
    (ThingsClient.commit st item now today .err).item.synced_state = item.synced_state ∧
    (item.synced_state ≠ none → (ThingsClient.commit st item now today .err).item = item) ∧
    (item.synced_state = none →
      (ThingsClient.commit st item now today .err).item =
        { item with modification_date := now }) := by
  unfold ThingsClient.commit TodoItem.to_update TodoItem.to_new
  cases hs : item.synced_state with
  | none =>
    simp [hs, Except.map]
  | some synced =>
    cases he : item.to_edit now with
    | error e => simp [hs, he, Except.map]
    | ok d => simp [hs, he, Except.map]

/-- Witness for `c4_amended` at the never-synced item `itemNew` with a
failing transport at time 2. -/
theorem c4_witness :
    (ThingsClient.commit st0 itemNew 2 0 .err).state = st0 ∧
    (ThingsClient.commit st0 itemNew 2 0 .err).item =
      { itemNew with modification_date := 2 } :=
  ⟨(c4_amended st0 itemNew 2 0).1, (c4_amended st0 itemNew 2 0).2.2.2.2 rfl⟩

/-! Characterization of the delta produced by `_to_edit`. -/

theorem editsDelta_unchanged_none (t : TodoItem) (synced : TodoApiObject)
    (now : Nat) (k : FieldKey) (hk : k ≠ .modification_date)
    (h : fieldDiff t synced k = false) :
    (t.editsDelta synced now).get? k = none := by
  cases k <;>
    simp_all [TodoItem.editsDelta, TodoDeltaApiObject.get?, carryVal, carryOpt]

theorem editsDelta_md_some (t : TodoItem) (synced : TodoApiObject) (now : Nat) :
    ((t.editsDelta synced now).get? .modification_date).isSome = true := by
  simp [TodoItem.editsDelta, TodoDeltaApiObject.get?]

theorem editsDelta_present (t : TodoItem) (synced : TodoApiObject) (now : Nat)
    (k : FieldKey) (v : FieldValue) (hk : k ≠ .modification_date)
    (h : (t.editsDelta synced now).get? k = some v) :
    t.getattr k = some v ∧ fieldDiff t synced k = true := by
  cases k <;>
    first
      | exact absurd rfl hk
      | (simp only [TodoItem.editsDelta, TodoDeltaApiObject.get?, carryVal,
          carryOpt] at h
         split at h <;>
           (rw [Option.map_eq_some'] at h
            obtain ⟨x, hx, hv⟩ := h
            subst hv
            simp_all [TodoItem.getattr]))
      | (simp only [TodoItem.editsDelta, TodoDeltaApiObject.get?] at h
         simp at h)

theorem map_wrapNat_eq (X : Option Nat) (hX : ¬ X = none) :
    X.map (fun n => FieldValue.optNat (some n)) = some (FieldValue.optNat X) := by
  cases X
  · exact absurd rfl hX
  · rfl

theorem map_wrapStr_eq (X : Option String) (hX : ¬ X = none) :
    X.map (fun s => FieldValue.optStr (some s)) = some (FieldValue.optStr X) := by
  cases X
  · exact absurd rfl hX
  · rfl

theorem editsDelta_changed (t : TodoItem) (synced : TodoApiObject) (now : Nat)
    (k : FieldKey) (hmem : k ∈ dumpKeys) (hk : k ≠ .modification_date)
    (hdiff : fieldDiff t synced k = true)
    (hn1 : t.getattr k ≠ some (.optNat none))
    (hn2 : t.getattr k ≠ some (.optStr none)) :
    (t.editsDelta synced now).get? k = t.getattr k := by
  cases k <;>
    first
      | exact absurd rfl hk
      | exact absurd hmem (by decide)
      | (simp [TodoItem.editsDelta, TodoDeltaApiObject.get?, carryVal, hdiff,
          TodoItem.getattr]
         done)
      | (simp only [TodoItem.editsDelta, TodoDeltaApiObject.get?, carryOpt]
         rw [if_pos hdiff]
         first
           | exact map_wrapNat_eq _ (fun hnone => hn1 (by simp [TodoItem.getattr, hnone]))
           | exact map_wrapStr_eq _ (fun hnone => hn2 (by simp [TodoItem.getattr, hnone])))

theorem editsDelta_null_absent (t : TodoItem) (synced : TodoApiObject) (now : Nat)
    (k : FieldKey)
    (h : t.getattr k = some (.optNat none) ∨ t.getattr k = some (.optStr none)) :
    (t.editsDelta synced now).get? k = none := by
  cases k <;>
    rcases h with h | h <;>
      first
        | (injection h; done)
        | (injection h with h
           first
             | (injection h; done)
             | (injection h with h
                first
                  | (injection h; done)
                  | (simp [TodoItem.editsDelta, TodoDeltaApiObject.get?, carryOpt, h]
                     done)))

theorem to_edit_ok (t : TodoItem) (now : Nat) (d : TodoDeltaApiObject)
    (h : t.to_edit now = .ok d) :
    ∃ synced, t.synced_state = some synced ∧ d = t.editsDelta synced now ∧
      dumpKeys.filter (fieldDiff t synced) ≠ [] := by
  cases hs : t.synced_state with
  | none => simp [TodoItem.to_edit, hs] at h
  | some synced =>
    simp only [TodoItem.to_edit, hs] at h
    split at h
    · cases h
    · injection h with h
      refine ⟨synced, rfl, h.symm, fun hnil => ?_⟩
      simp_all

/-! Claim C5. -/

/-- Claim C5, counterexample: for a synced item whose title and area both
changed, the edit payload carries the title but not the area (areas are
never diffed), while it does carry a `modification_date` even though the
working and synced modification dates agree — both directions of the
claim's "exactly the changed fields" fail. -/
theorem c5_counterexample :
    ((itemC5.to_edit 9).map fun d =>
      (d.get? .areas, d.get? .title, d.get? .modification_date)) =
      .ok (none, some (.str "B"), some (.optNat (some 9))) ∧
    itemC5.areas ≠ apiA.areas ∧
    itemC5.synced_state = some apiA ∧
    itemC5.modification_date = 1 ∧ apiA.modification_date = some 1 := by
  exact ⟨rfl, by decide, rfl, rfl, rfl⟩

/-- Claim C5, amended: the diff in `_to_edit` ranges only over the dumped
fields (the public pydantic fields plus the computed `type`, `status`,
`destination`): the hidden `projects`, `areas` and `evening` never
appear in an edit payload; a dumped field other than
`modification_date` appears exactly when its working value differs from
the synced value and is not `None`, and then with the working value (a
field changed to `None` lands in the `edits` dict as `None` and is
dropped again by `exclude_none`); `modification_date` is always present
(defaulted to the encode-time instant when it did not change). -/
theorem c5_amended (t : TodoItem) (now : Nat) (d : TodoDeltaApiObject)
    (synced : TodoApiObject) (hs : t.synced_state = some synced)
    (hd : t.to_edit now = .ok d) :
    (d.get? .projects = none ∧ d.get? .areas = none ∧ d.get? .evening = none) ∧
    (∀ k, k ≠ FieldKey.modification_date → fieldDiff t synced k = false →
      d.get? k = none) ∧
    (d.get? .modification_date).isSome = true ∧
    (∀ k v, k ≠ FieldKey.modification_date → d.get? k = some v →
      t.getattr k = some v ∧ fieldDiff t synced k = true) ∧
    (∀ k, k ∈ dumpKeys → k ≠ FieldKey.modification_date →
      fieldDiff t synced k = true →
      t.getattr k ≠ some (.optNat none) → t.getattr k ≠ some (.optStr none) →
      d.get? k = t.getattr k) ∧
    (∀ k, t.getattr k = some (.optNat none) ∨ t.getattr k = some (.optStr none) →
      d.get? k = none) := by
  obtain ⟨synced2, hs2, hdd, _⟩ := to_edit_ok t now d hd
  rw [hs] at hs2
  injection hs2 with hs2
  subst hs2
  subst hdd
  refine ⟨⟨rfl, rfl, rfl⟩, ?_, editsDelta_md_some t synced now, ?_, ?_, ?_⟩
  · exact fun k hk hf => editsDelta_unchanged_none t synced now k hk hf
  · exact fun k v hk h => editsDelta_present t synced now k v hk h
  · exact fun k hmem hk hdiff hn1 hn2 =>
      editsDelta_changed t synced now k hmem hk hdiff hn1 hn2
  · exact fun k h => editsDelta_null_absent t synced now k h

/-- Witness for `c5_amended` at the synced item `itemC5`: its payload
omits the changed area, carries the changed title with the working
value (exercising both the present-implies-changed and the
changed-non-None-implies-present directions), and carries a
modification date. -/
theorem c5_witness :
    (TodoItem.editsDelta itemC5 apiA 9).get? .areas = none ∧
    itemC5.getattr .title = some (.str "B") ∧
    (TodoItem.editsDelta itemC5 apiA 9).get? .title = itemC5.getattr .title := by
  have h := c5_amended itemC5 9 (TodoItem.editsDelta itemC5 apiA 9) apiA rfl (by rfl)
  refine ⟨h.1.2.1, ?_, ?_⟩
  · exact (h.2.2.2.1 .title (.str "B") (by decide) (by decide)).1
  · exact h.2.2.2.2.1 .title (by decide) (by decide) (by decide) (by decide) (by decide)

/-! Claim C6. -/

/-- Claim C6, counterexample: `itemC6` has a non-null synced state and its
`_areas` differs from the synced areas, yet `_to_edit` fails with "no
changes found" — so "encodeEdit fails exactly when the synced state is
null or no field differs" is false: it also fails when only an undumped
field (project, area, evening) differs. -/
theorem c6_counterexample :
    itemC6.synced_state = some apiA ∧
    itemC6.areas ≠ apiA.areas ∧
    itemC6.to_edit 9 = .error (.valueError "no changes found") := by
  exact ⟨rfl, by decide, rfl⟩

/-- Claim C6, amended: `_to_new` succeeds exactly when the synced state is
null, and `_to_edit` succeeds exactly when the synced state is non-null
and some dumped field (public or computed — not `projects`, `areas` or
`evening`) differs from its synced value. -/
theorem c6_amended (t : TodoItem) (now today : Nat) :
    ((t.to_new now today).isOk = true ↔ t.synced_state = none) ∧
    ((t.to_edit now).isOk = true ↔
      ∃ synced, t.synced_state = some synced ∧
        dumpKeys.filter (fieldDiff t synced) ≠ []) := by
  constructor
  · cases hs : t.synced_state with
    | none => simp [TodoItem.to_new, hs, Except.isOk, Except.toBool]
    | some synced => simp [TodoItem.to_new, hs, Except.isOk, Except.toBool]
  · cases hs : t.synced_state with
    | none => simp [TodoItem.to_edit, hs, Except.isOk, Except.toBool]
    | some synced =>
      simp only [TodoItem.to_edit, hs]
      by_cases hemp : (dumpKeys.filter (fieldDiff t synced)).isEmpty = true
      · rw [if_pos hemp]
        constructor
        · intro hfalse
          simp [Except.isOk, Except.toBool] at hfalse
        · rintro ⟨synced2, hs2, hne⟩
          injection hs2 with hs2
          subst hs2
          exact absurd (List.isEmpty_iff.mp hemp) hne
      · rw [if_neg hemp]
        constructor
        · intro _
          exact ⟨synced, rfl, fun hnil => hemp (by simp [hnil])⟩
        · intro _
          rfl

/-- Witness for `c6_amended`: the never-synced `itemNew` encodes as a
create, and the synced-with-changed-title `itemB` encodes as an edit. -/
theorem c6_witness :
    (itemNew.to_new 2 0).isOk = true ∧ (itemB.to_edit 9).isOk = true := by
  constructor
  · exact (c6_amended itemNew 2 0).1.mpr rfl
  · exact (c6_amended itemB 9 0).2.mpr ⟨apiA, rfl, by decide⟩

/-! Claim C7. -/

/-- Claim C7, counterexample: with the cursor at 5, a refresh whose
response reports `current-item-index` 3 succeeds and sets the cursor to
3 — the cursor decreased, because the code assigns the server-reported
index without enforcing monotonicity. -/
theorem c7_counterexample :
    ThingsClient.fetchIndex stOff5 = 5 ∧
    ThingsClient.update stOff5 dataIdx3 0 = .ok { stOff5 with offset := 3 } ∧
    (3 : Nat) < 5 := by
  exact ⟨rfl, rfl, by decide⟩

/-- Claim C7, amended: the cursor is assigned directly from the
server-reported indices — after a successful commit that returned head
index `h` the cursor equals `h` and the next refresh fetches from `h`,
and after a successful refresh the cursor equals the response's
`current-item-index`; it therefore never decreases only when the
reported indices themselves never decrease, which the code does not
enforce. -/
theorem c7_amended (st : ClientState) (item : TodoItem) (now today head : Nat)
    (data : HistoryResponse) :
    ((ThingsClient.commit st item now today (.ok head)).error = none →
      (ThingsClient.commit st item now today (.ok head)).state.offset = head ∧
      ThingsClient.fetchIndex (ThingsClient.commit st item now today (.ok head)).state = head) ∧
    (∀ st2, ThingsClient.update st data now = .ok st2 →
      st2.offset = data.current_item_index) := by
  constructor
  · intro herr
    cases hu : item.to_update now today with
    | error e => simp [ThingsClient.commit, hu] at herr
    | ok pair =>
      cases hc : pair.1.commitBody pair.2.body with
      | error e => simp [ThingsClient.commit, hu, hc] at herr
      | ok item3 =>
        constructor
        · simp [ThingsClient.commit, hu, hc]
        · simp [ThingsClient.commit, ThingsClient.fetchIndex, hu, hc]
  · intro st2 h2
    unfold ThingsClient.update at h2
    cases hp : ThingsClient.process_history st data.items now with
    | error e => rw [hp] at h2; cases h2
    | ok stp =>
      rw [hp] at h2
      injection h2 with h2
      rw [← h2]

/-- Witness for `c7_amended`: a successful commit of `itemNew` with head
index 7 leaves the cursor (and hence the next fetch index) at 7, and the
refresh of `stOff5` with `dataIdx3` leaves the cursor at 3. -/
theorem c7_witness :
    (ThingsClient.commit st0 itemNew 2 0 (.ok 7)).state.offset = 7 ∧
    ThingsClient.fetchIndex (ThingsClient.commit st0 itemNew 2 0 (.ok 7)).state = 7 ∧
    ({ stOff5 with offset := 3 } : ClientState).offset = dataIdx3.current_item_index := by
  have h := c7_amended st0 itemNew 2 0 7 dataIdx3
  refine ⟨(h.1 (by rfl)).1, (h.1 (by rfl)).2, ?_⟩
  exact h.2 { stOff5 with offset := 3 } (by rfl)

/-! Claim C8. -/

/-- Claim C8, confirmed: setting the current status is rejected (and, the
setter being pure up to that raise, the task is unchanged); a successful
transition to Complete or Cancelled stamps `completion_date` with the
current instant; a successful transition to Todo clears it. -/
theorem c8_theorem (t : TodoItem) (s : Status) (now : Nat) (hne : s ≠ t.status) :
    t.setStatus t.status now =
      .error (.valueError ("item already has " ++ statusName t.status ++ " status")) ∧
    (∃ t2, t.setStatus s now = .ok t2 ∧ t2.status = s ∧
      t2.completion_date = (match s with
        | .todo => none
        | .complete => some now
        | .cancelled => some now)) := by
  constructor
  · unfold TodoItem.setStatus
    rw [if_pos rfl]
  · unfold TodoItem.setStatus
    rw [if_neg (fun h => hne h.symm)]
    cases s with
    | todo => exact ⟨_, rfl, rfl, rfl⟩
    | complete => exact ⟨_, rfl, rfl, rfl⟩
    | cancelled => exact ⟨_, rfl, rfl, rfl⟩

/-- Witness for `c8_theorem` at the Todo-status item `itemS` transitioning
to Complete at time 7. -/
theorem c8_witness :
    itemS.setStatus itemS.status 7 =
      .error (.valueError ("item already has " ++ statusName itemS.status ++ " status")) ∧
    (∃ t2, itemS.setStatus .complete 7 = .ok t2 ∧ t2.status = .complete ∧
      t2.completion_date = some 7) :=
  c8_theorem itemS .complete 7 (by decide)

/-! Claim C9. -/

/-- Claim C9, confirmed for well-formed (nonempty) identifiers: on a Task
proper, assigning a project replaces `_projects`, clears `_areas`, and
moves an Inbox task to Anytime; assigning an area does the symmetric
thing; and assigning the task's own uuid as its project is rejected. -/
theorem c9_theorem (t : TodoItem) (pid aid : String)
    (hT : t.type = TType.task)
    (hpid : pid ≠ "") (hself : pid ≠ t.uuid) (hU : t.uuid ≠ "") (haid : aid ≠ "")
    (hA : ∀ a ∈ t.areas, a ≠ "") (hP : ∀ p ∈ t.projects, p ≠ "") :
    (∃ t2, t.setProject (some pid) = .ok t2 ∧ t2.projects = [pid] ∧ t2.areas = [] ∧
      t2.destination = (if t.destination = .inbox then .anytime else t.destination)) ∧
    (∃ t3, t.setArea (some aid) = .ok t3 ∧ t3.areas = [aid] ∧ t3.projects = [] ∧
      t3.destination = (if t.destination = .inbox then .anytime else t.destination)) ∧
    t.setProject (some t.uuid) = .error (.valueError "cannot assign self as project") := by
  refine ⟨?_, ?_, ?_⟩
  · have h2 : ¬ (some t.uuid = some pid) := fun h => hself (Option.some.inj h).symm
    cases hAr : t.areas with
    | nil =>
      by_cases hd : t.destination = Destination.inbox
      · refine ⟨{ t with projects := [pid], destination := .anytime }, ?_, rfl, ?_, ?_⟩
        · simp [TodoItem.setProject, Bind.bind, Except.bind, strTruthy, hpid, h2, TodoItem.area, hAr,
            TodoItem.setDestination, hT, hd]
        · simp [hAr]
        · simp [hd]
      · refine ⟨{ t with projects := [pid] }, ?_, rfl, ?_, ?_⟩
        · simp [TodoItem.setProject, Bind.bind, Except.bind, strTruthy, hpid, h2, TodoItem.area, hAr,
            TodoItem.setDestination, hT, hd]
        · simp [hAr]
        · simp [hd]
    | cons a as =>
      have ha : a ≠ "" := hA a (by rw [hAr]; exact List.mem_cons_self a as)
      by_cases hd : t.destination = Destination.inbox
      · refine ⟨{ t with projects := [pid], areas := [], destination := .anytime },
          ?_, rfl, rfl, ?_⟩
        · simp [TodoItem.setProject, Bind.bind, Except.bind, strTruthy, hpid, h2, TodoItem.area, hAr, ha,
            TodoItem.setDestination, hT, hd]
        · simp [hd]
      · refine ⟨{ t with projects := [pid], areas := [] }, ?_, rfl, rfl, ?_⟩
        · simp [TodoItem.setProject, Bind.bind, Except.bind, strTruthy, hpid, h2, TodoItem.area, hAr, ha,
            TodoItem.setDestination, hT, hd]
        · simp [hd]
  · cases hPr : t.projects with
    | nil =>
      by_cases hd : t.destination = Destination.inbox
      · refine ⟨{ t with areas := [aid], destination := .anytime }, ?_, rfl, ?_, ?_⟩
        · simp [TodoItem.setArea, Bind.bind, Except.bind, strTruthy, haid, TodoItem.project, hPr,
            TodoItem.setDestination, hT, hd]
        · simp [hPr]
        · simp [hd]
      · refine ⟨{ t with areas := [aid] }, ?_, rfl, ?_, ?_⟩
        · simp [TodoItem.setArea, Bind.bind, Except.bind, strTruthy, haid, TodoItem.project, hPr,
            TodoItem.setDestination, hT, hd]
        · simp [hPr]
        · simp [hd]
    | cons p ps =>
      have hp : p ≠ "" := hP p (by rw [hPr]; exact List.mem_cons_self p ps)
      by_cases hd : t.destination = Destination.inbox
      · refine ⟨{ t with areas := [aid], projects := [], destination := .anytime },
          ?_, rfl, rfl, ?_⟩
        · simp [TodoItem.setArea, Bind.bind, Except.bind, strTruthy, haid, TodoItem.project, hPr, hp,
            TodoItem.setDestination, hT, hd]
        · simp [hd]
      · refine ⟨{ t with areas := [aid], projects := [] }, ?_, rfl, rfl, ?_⟩
        · simp [TodoItem.setArea, Bind.bind, Except.bind, strTruthy, haid, TodoItem.project, hPr, hp,
            TodoItem.setDestination, hT, hd]
        · simp [hd]
  · simp [TodoItem.setProject, Bind.bind, Except.bind, strTruthy, hU]

/-- Witness for `c9_theorem` at the Inbox task `itemP` (project "p0", area
"a0") with new project id "p1" and new area id "a1". -/
theorem c9_witness :
    (∃ t2, itemP.setProject (some "p1") = .ok t2 ∧ t2.projects = ["p1"] ∧
      t2.areas = [] ∧
      t2.destination = (if itemP.destination = .inbox then .anytime else itemP.destination)) ∧
    (∃ t3, itemP.setArea (some "a1") = .ok t3 ∧ t3.areas = ["a1"] ∧
      t3.projects = [] ∧
      t3.destination = (if itemP.destination = .inbox then .anytime else itemP.destination)) ∧
    itemP.setProject (some itemP.uuid) =
      .error (.valueError "cannot assign self as project") :=
  c9_theorem itemP "p1" "a1" rfl (by decide) (by decide) (by decide) (by decide)
    (by decide) (by decide)

/-! Claim C10. -/

theorem getattr_set_md (t : TodoItem) (n : Nat) (k : FieldKey)
    (hk : k ≠ FieldKey.modification_date) :
    TodoItem.getattr { t with modification_date := n } k = t.getattr k := by
  cases k <;> first | exact absurd rfl hk | rfl

theorem getattr_set_synced (t : TodoItem) (s : Option TodoApiObject) (k : FieldKey) :
    TodoItem.getattr { t with synced_state := s } k = t.getattr k := by
  cases k <;> rfl

theorem commitBody_edit_getattr (t : TodoItem) (d : TodoDeltaApiObject)
    (t2 : TodoItem) (h : t.commitBody (.edit d) = .ok t2) (k : FieldKey) :
    t2.getattr k = t.getattr k := by
  unfold TodoItem.commitBody at h
  cases hs : t.synced_state with
  | none => rw [hs] at h; cases h
  | some synced =>
    rw [hs] at h
    injection h with h
    subst h
    exact getattr_set_synced t _ k

theorem applyStep_md_cases (d : TodoDeltaApiObject) (now : Nat) (todo : TodoItem) :
    (∃ e, applyStep d now todo .modification_date = .error e) ∨
    (∃ n, applyStep d now todo .modification_date =
      .ok { todo with modification_date := n }) := by
  cases hm : d.modification_date with
  | none =>
    right
    exact ⟨todo.modification_date,
      by simp [applyStep, TodoDeltaApiObject.get?, hm]⟩
  | some n =>
    by_cases heq : FieldValue.optNat (some todo.modification_date) =
        FieldValue.optNat (some n)
    · left
      refine ⟨.valueError "old and new value are identical", ?_⟩
      simp [applyStep, TodoDeltaApiObject.get?, hm, TodoItem.getattr, heq]
    · right
      refine ⟨n, ?_⟩
      simp [applyStep, TodoDeltaApiObject.get?, hm, TodoItem.getattr, heq,
        TodoItem.setattr]

theorem applyFold_error (t : TodoItem) (synced : TodoApiObject) (now1 now2 : Nat) :
    ∀ (L : List FieldKey) (todo : TodoItem),
      (∀ k ∈ L, (((t.editsDelta synced now1).get? k)).isSome = true) →
      (∀ k, k ≠ FieldKey.modification_date → todo.getattr k = t.getattr k) →
      (∃ k0 ∈ L, k0 ≠ FieldKey.modification_date) →
      ∃ e, L.foldlM (applyStep (t.editsDelta synced now1) now2) todo = .error e := by
  intro L
  induction L with
  | nil =>
    rintro todo _ _ ⟨k0, hk0, _⟩
    exact absurd hk0 (List.not_mem_nil k0)
  | cons k ks ih =>
    intro todo hpres hagree hex
    by_cases hk : k = FieldKey.modification_date
    · subst hk
      rcases applyStep_md_cases (t.editsDelta synced now1) now2 todo with
        ⟨e, he⟩ | ⟨n, hn⟩
      · exact ⟨e, by rw [List.foldlM_cons, he]; rfl⟩
      · obtain ⟨k0, hk0, hk0ne⟩ := hex
        have hk0ks : k0 ∈ ks := by
          rcases List.mem_cons.mp hk0 with h0 | h0
          · exact absurd h0 hk0ne
          · exact h0
        have hagree2 : ∀ k', k' ≠ FieldKey.modification_date →
            TodoItem.getattr { todo with modification_date := n } k' = t.getattr k' :=
          fun k' hk' => (getattr_set_md todo n k' hk').trans (hagree k' hk')
        obtain ⟨e, he⟩ := ih { todo with modification_date := n }
          (fun k' hk' => hpres k' (List.mem_cons_of_mem _ hk')) hagree2
          ⟨k0, hk0ks, hk0ne⟩
        exact ⟨e, by rw [List.foldlM_cons, hn]; exact he⟩
    · have hps := hpres k (List.mem_cons_self k ks)
      obtain ⟨v, hv⟩ := Option.isSome_iff_exists.mp hps
      have hgv := editsDelta_present t synced now1 k v hk hv
      have hstep : applyStep (t.editsDelta synced now1) now2 todo k =
          .error (.valueError "old and new value are identical") := by
        unfold applyStep
        rw [hv, hagree k hk, hgv.1]
        simp
      exact ⟨_, by rw [List.foldlM_cons, hstep]; rfl⟩

/-- Claim C10, counterexample: `itemC10`'s only local change cleared
`completion_date` to `None`, so its acknowledged edit payload carries
nothing but the defaulted `modification_date`; replaying that payload
through the history edit path succeeds silently (the store is updated,
no error), refuting the claim that replaying one's own acknowledged edit
always raises. -/
theorem c10_counterexample :
    itemC10.to_edit 9 = .ok dC10 ∧
    fieldDiff itemC10 apiComp .completion_date = true ∧
    dC10.presentKeys = [FieldKey.modification_date] ∧
    itemC10.commitBody (.edit dC10) = .ok itemC10Committed ∧
    ThingsClient.processUpdate { st0 with items := [("X", itemC10Committed)] }
        { id := "X", body := .edit dC10 } 11 =
      .ok { st0 with items := [("X", { itemC10Committed with modification_date := 9 })] } := by
  exact ⟨rfl, rfl, rfl, rfl, rfl⟩

/-- Claim C10, amended: replaying a just-acknowledged edit raises an
error whenever the payload carries at least one field besides the
always-present `modification_date` (equivalently, some edited field's
working value was not `None`): the first such field compares equal to
the entity's current value and `apply_edits` rejects it. A payload
whose only carried field is `modification_date` (every edited field was
cleared to `None`) can instead be absorbed silently. -/
theorem c10_amended (t : TodoItem) (now now2 : Nat) (d : TodoDeltaApiObject)
    (t2 : TodoItem) (hd : t.to_edit now = .ok d)
    (hc : t.commitBody (.edit d) = .ok t2)
    (hcarry : ∃ k ∈ d.presentKeys, k ≠ FieldKey.modification_date) :
    ∃ e, d.apply_edits t2 now2 = .error e := by
  obtain ⟨synced, hs, hdd, hne⟩ := to_edit_ok t now d hd
  subst hdd
  unfold TodoDeltaApiObject.apply_edits
  by_cases hemp : (TodoItem.editsDelta t synced now).presentKeys.isEmpty = true
  · rw [if_pos hemp]
    exact ⟨_, rfl⟩
  · rw [if_neg hemp]
    apply applyFold_error t synced now now2 _ t2
    · intro k hk
      exact (List.mem_filter.mp hk).2
    · intro k _
      exact commitBody_edit_getattr t _ t2 hc k
    · exact hcarry

/-- Witness for `c10_amended` at the title-edited item `itemB`: replaying
its acknowledged delta `dB` onto the committed item errors. -/
theorem c10_witness :
    ∃ e, dB.apply_edits itemBCommitted 11 = .error e :=
  c10_amended itemB 9 11 dB itemBCommitted (by rfl) (by rfl)
    ⟨.title, by decide, by decide⟩

end ThingsCloud
